import Mathlib

/-!
# Traffic light controller (`traffic_control.c`)

A shallow embedding of the ATmega328P traffic light controller and the
properties of its timing and pedestrian logic.

Modelling conventions.

* The machine state is the record `State`: the 8-bit output register `PORTB`,
  the 16-bit millisecond counter `count`, the `unsigned char` flag
  `buttonpushed` and the 8-bit timer register `TCNT0`.  Registers are natural
  numbers; every write is truncated to the register width.
* `int` is 16 bits wide on the AVR, so `~(1<<n)` is the 16-bit complement
  `0xFFFF ^ (1<<n)`; the result of `PORTB &= ...` is truncated to 8 bits.
* Each function body reads the volatile `count` once: an evaluation "at tick
  `t`" is an evaluation in a state whose `count` field is `t`.  Timer
  interrupts are separate steps (`Event.tick`) that may occur between any two
  function evaluations.
* The comparison `count >= 8/1e-3` of the interrupt handler is read as the
  integer comparison `count >= 8000` (see `threshold_reading`).
-/

namespace TrafficControl

/-! ## Pin numbers (from `avr/io.h` for the ATmega328P) -/

/-- Bit number of `PORTB0` in the device header. -/
def PORTB0 : Nat := 0
/-- Bit number of `PORTB1` in the device header. -/
def PORTB1 : Nat := 1
/-- Bit number of `PORTB2` in the device header. -/
def PORTB2 : Nat := 2
/-- Bit number of `PORTB3` in the device header. -/
def PORTB3 : Nat := 3
/-- Bit number of `PINC3` in the device header. -/
def PINC3 : Nat := 3

/-- The enum constant `RED = PORTB0`. -/
def RED : Nat := PORTB0
/-- The enum constant `GREEN = PORTB1`. -/
def GREEN : Nat := PORTB1
/-- The enum constant `YELLOW = PORTB2`. -/
def YELLOW : Nat := PORTB2
/-- The enum constant `PEDESTRIAN = PORTB3`. -/
def PEDESTRIAN : Nat := PORTB3

/-! ## State -/

/-- The globals and registers the program reads and writes. -/
structure State where
  /-- Output register, 8 bits: bit 0 red, bit 1 green, bit 2 yellow, bit 3 pedestrian. -/
  PORTB : Nat
  /-- The counter `volatile unsigned int count`, 16 bits, one count per millisecond. -/
  count : Nat
  /-- The flag `unsigned char buttonpushed`; non-zero means a request is pending. -/
  buttonpushed : Nat
  /-- Timer/Counter0 register, written by the interrupt handler. -/
  TCNT0 : Nat
  deriving DecidableEq, Repr

/-- The state `main` establishes before entering its loop. -/
def initial : State := { PORTB := 0, count := 0, buttonpushed := 0, TCNT0 := 0 }

/-- Registers hold values of their width. -/
def State.WF (s : State) : Prop :=
  s.PORTB < 256 ∧ s.count < 65536 ∧ s.buttonpushed < 256 ∧ s.TCNT0 < 256

instance (s : State) : Decidable s.WF := by
  unfold State.WF; infer_instance

/-! ## Macros -/

/-- The macro `TURN_ON(n)`, that is `PORTB |= 1<<n`, as a function of the register value. -/
def TURN_ON (portb n : Nat) : Nat := (portb ||| (1 <<< n)) % 256

/-- The macro `TURN_OFF(n)`, that is `PORTB &= ~(1<<n)`, with the 16-bit `int` complement. -/
def TURN_OFF (portb n : Nat) : Nat := (portb &&& (0xFFFF ^^^ (1 <<< n))) % 256

/-- The macro `RED_ON`, that is `count < 4000`. -/
def RED_ON (count : Nat) : Bool := decide (count < 4000)

/-- The macro `GREEN_ON`, that is `(count >= 4000 && count < 6000)`. -/
def GREEN_ON (count : Nat) : Bool := decide (count ≥ 4000) && decide (count < 6000)

/-- The macro `YELLOW_ON`, that is `!(RED_ON || GREEN_ON)`. -/
def YELLOW_ON (count : Nat) : Bool := !(RED_ON count || GREEN_ON count)

/-- Whether output line `n` of the register value is driven high (the light is ON). -/
def lit (portb n : Nat) : Bool := portb.testBit n

/-! ## Functions -/

/-- The function `button_press`; `pinc1` and `pinc2` are the values read from `PINC`
before and after the 20 ms debounce delay. -/
def button_press (s : State) (pinc1 pinc2 : Nat) : State :=
  if s.buttonpushed = 0 then
    let t_buttonpushed := (pinc1 &&& (1 <<< PINC3)) % 256
    { s with buttonpushed :=
        if (pinc2 &&& (1 <<< PINC3)) ≠ 0 ∨ t_buttonpushed ≠ 0 then 0 else 1 }
  else s

/-- The function `pedestrian_light`. -/
def pedestrian_light (s : State) : State :=
  if RED_ON s.count then
    { s with PORTB := TURN_OFF s.PORTB PEDESTRIAN }
  else if s.buttonpushed ≠ 0 then
    if GREEN_ON s.count then
      { s with PORTB := TURN_ON s.PORTB PEDESTRIAN }
    else if YELLOW_ON s.count then
      if s.count < 6500 then
        { s with PORTB := TURN_OFF s.PORTB PEDESTRIAN }
      else if s.count < 7000 then
        { s with PORTB := TURN_ON s.PORTB PEDESTRIAN }
      else if s.count < 7500 then
        { s with PORTB := TURN_OFF s.PORTB PEDESTRIAN }
      else if s.count < 8000 then
        { s with PORTB := TURN_ON s.PORTB PEDESTRIAN, buttonpushed := 0 }
      else s
    else s
  else s

/-- The interrupt handler `ISR(TIMER0_COMPA_vect)`. -/
def ISR (s : State) : State :=
  let s := { s with TCNT0 := 0 }
  if s.count ≥ 8000 then
    { s with count := 0 }
  else
    { s with count := (s.count + 1) % 65536 }

/-- The function `red_light`. -/
def red_light (s : State) : State :=
  let p := TURN_ON s.PORTB RED
  let p := TURN_OFF p YELLOW
  let p := TURN_OFF p GREEN
  { s with PORTB := p }

/-- The function `yellow_on`. -/
def yellow_on (s : State) : State :=
  let p := TURN_OFF s.PORTB RED
  let p := TURN_ON p YELLOW
  let p := TURN_OFF p GREEN
  { s with PORTB := p }

/-- The function `green_on`. -/
def green_on (s : State) : State :=
  let p := TURN_OFF s.PORTB RED
  let p := TURN_OFF p YELLOW
  let p := TURN_ON p GREEN
  { s with PORTB := p }

/-- The function `manage_traffic_lights`. -/
def manage_traffic_lights (s : State) : State :=
  if RED_ON s.count then red_light s
  else if GREEN_ON s.count then green_on s
  else yellow_on s

/-- One pass through the body of the `while (1)` loop of `main`. -/
def main_iteration (s : State) (pinc1 pinc2 : Nat) : State :=
  pedestrian_light (button_press (manage_traffic_lights s) pinc1 pinc2)

/-- `n` successive invocations of the interrupt handler. -/
def ISR_times : Nat → State → State
  | 0, s => s
  | n + 1, s => ISR_times n (ISR s)

/-! ## Interleavings of the main loop and the timer interrupt -/

/-- The things that can happen: a timer interrupt, or an evaluation of one of the three
functions called by the main loop (`button` carries the two samples of `PINC`). -/
inductive Event where
  | tick
  | traffic
  | button (pinc1 pinc2 : Nat)
  | pedestrian
  deriving DecidableEq, Repr

/-- The effect of one event. -/
def step (s : State) : Event → State
  | Event.tick => ISR s
  | Event.traffic => manage_traffic_lights s
  | Event.button a b => button_press s a b
  | Event.pedestrian => pedestrian_light s

/-- The effect of a sequence of events, first event first. -/
def run (s : State) (evs : List Event) : State := evs.foldl step s

/-- The input pin reads high (button released) in the sample `pinc`. -/
def pinHigh (pinc : Nat) : Bool := pinc.testBit PINC3

/-- In the event `e` the input pin is not read low. -/
def neverLow : Event → Prop
  | Event.button a b => pinHigh a = true ∧ pinHigh b = true
  | _ => True

instance : DecidablePred neverLow := fun e => by
  cases e <;> (unfold neverLow; infer_instance)

/-! ## One loop iteration per timer tick -/

/-- Both samples of a pair read the input pin low (button pressed across the debounce
delay). -/
def bothLow (samples : Nat × Nat) : Prop := pinHigh samples.1 = false ∧ pinHigh samples.2 = false

instance : DecidablePred bothLow := fun x => by
  unfold bothLow; infer_instance

/-- The state after loop iteration number `n` when the main loop and the timer interrupt
alternate, starting from the initial state with an iteration: iteration 0, interrupt,
iteration 1, interrupt, and so on. `inp n` is the pair of samples of `PINC` read by
`button_press` in iteration `n`. -/
def loop_run (inp : Nat → Nat × Nat) : Nat → State
  | 0 => main_iteration initial (inp 0).1 (inp 0).2
  | n + 1 => main_iteration (ISR (loop_run inp n)) (inp (n + 1)).1 (inp (n + 1)).2

/-- Samples for a single press: the pin reads low on both samples in iteration `press`
and high on both samples in every other iteration. -/
def single_press (press : Nat) (n : Nat) : Nat × Nat :=
  if n = press then (0, 0) else (1 <<< PINC3, 1 <<< PINC3)

/-! ## Bit-level lemmas -/

theorem and_bit_ne_zero (x n : Nat) : (x &&& (1 <<< n)) ≠ 0 ↔ x.testBit n = true := by
  rw [Nat.one_shiftLeft]
  constructor
  · intro h
    by_contra hx
    apply h
    apply Nat.eq_of_testBit_eq
    intro i
    rw [Nat.testBit_and, Nat.testBit_two_pow, Nat.zero_testBit]
    by_cases hi : n = i
    · subst hi; simp [hx]
    · simp [hi]
  · intro hx h0
    have : (x &&& 2 ^ n).testBit n = true := by
      rw [Nat.testBit_and, Nat.testBit_two_pow, hx]; simp
    rw [h0, Nat.zero_testBit] at this
    exact absurd this (by simp)

theorem and_bit_mod (x : Nat) : (x &&& (1 <<< PINC3)) % 256 = x &&& (1 <<< PINC3) := by
  apply Nat.mod_eq_of_lt
  have : x &&& (1 <<< PINC3) ≤ 1 <<< PINC3 := Nat.and_le_right
  have h8 : (1 <<< PINC3) = 8 := rfl
  omega

/-- Reading of the handler's comparison `count >= 8/1e-3`: whatever value the constant
`8/1e-3` rounds to, as long as it lies in `(7999, 8000]`, the comparison with the integer
counter is `count >= 8000`. -/
theorem threshold_reading (x : ℚ) (h1 : 7999 < x) (h2 : x ≤ 8000) (c : Nat) :
    x ≤ (c : ℚ) ↔ 8000 ≤ c := by
  constructor
  · intro h
    have h3 : ((7999 : Nat) : ℚ) < (c : ℚ) := by push_cast; exact lt_of_lt_of_le h1 h
    have h4 : 7999 < c := by exact_mod_cast h3
    omega
  · intro h
    have h3 : ((8000 : Nat) : ℚ) ≤ (c : ℚ) := by exact_mod_cast h
    push_cast at h3
    exact le_trans h2 h3

theorem testBit_TURN_ON (p n m : Nat) :
    (TURN_ON p n).testBit m = (decide (m < 8) && (p.testBit m || decide (n = m))) := by
  unfold TURN_ON
  rw [show (256 : Nat) = 2 ^ 8 from rfl, Nat.testBit_mod_two_pow, Nat.testBit_or,
    Nat.one_shiftLeft, Nat.testBit_two_pow]

theorem testBit_TURN_OFF (p n m : Nat) :
    (TURN_OFF p n).testBit m
      = (decide (m < 8) && (p.testBit m && !decide (n = m))) := by
  unfold TURN_OFF
  rw [show (256 : Nat) = 2 ^ 8 from rfl, Nat.testBit_mod_two_pow, Nat.testBit_and,
    Nat.testBit_xor, Nat.one_shiftLeft, Nat.testBit_two_pow,
    show (0xFFFF : Nat) = 2 ^ 16 - 1 from rfl, Nat.testBit_two_pow_sub_one]
  by_cases h8 : m < 8
  · have h16 : m < 16 := by omega
    simp [h8, h16]
  · simp [h8]

theorem lit_TURN_ON (p n m : Nat) :
    lit (TURN_ON p n) m = (decide (m < 8) && (lit p m || decide (n = m))) :=
  testBit_TURN_ON p n m

theorem lit_TURN_OFF (p n m : Nat) :
    lit (TURN_OFF p n) m = (decide (m < 8) && (lit p m && !decide (n = m))) :=
  testBit_TURN_OFF p n m

/-! ## Which branch is taken -/

theorem RED_ON_iff (t : Nat) : RED_ON t = true ↔ t < 4000 := by
  simp [RED_ON]

theorem GREEN_ON_iff (t : Nat) : GREEN_ON t = true ↔ 4000 ≤ t ∧ t < 6000 := by
  simp [GREEN_ON]

theorem YELLOW_ON_iff (t : Nat) : YELLOW_ON t = true ↔ 6000 ≤ t := by
  simp only [YELLOW_ON, RED_ON, GREEN_ON, Bool.not_eq_true', Bool.or_eq_false_iff,
    Bool.and_eq_false_iff, decide_eq_false_iff_not]
  omega

theorem manage_traffic_lights_red (s : State) (h : s.count < 4000) :
    manage_traffic_lights s = red_light s := by
  simp [manage_traffic_lights, (RED_ON_iff s.count).2 h]

theorem manage_traffic_lights_green (s : State) (h1 : 4000 ≤ s.count) (h2 : s.count < 6000) :
    manage_traffic_lights s = green_on s := by
  have hr : ¬ RED_ON s.count = true := by rw [RED_ON_iff]; omega
  simp [manage_traffic_lights, hr, (GREEN_ON_iff s.count).2 ⟨h1, h2⟩]

theorem manage_traffic_lights_yellow (s : State) (h : 6000 ≤ s.count) :
    manage_traffic_lights s = yellow_on s := by
  have hr : ¬ RED_ON s.count = true := by rw [RED_ON_iff]; omega
  have hg : ¬ GREEN_ON s.count = true := by rw [GREEN_ON_iff]; omega
  simp [manage_traffic_lights, hr, hg]

/-! ## Branches of `pedestrian_light` -/

theorem pedestrian_light_red (s : State) (h : s.count < 4000) :
    pedestrian_light s = { s with PORTB := TURN_OFF s.PORTB PEDESTRIAN } := by
  simp [pedestrian_light, (RED_ON_iff s.count).2 h]

theorem pedestrian_light_idle (s : State) (h : 4000 ≤ s.count) (hb : s.buttonpushed = 0) :
    pedestrian_light s = s := by
  have hr : ¬ RED_ON s.count = true := by rw [RED_ON_iff]; omega
  simp [pedestrian_light, hr, hb]

theorem pedestrian_light_green (s : State) (h1 : 4000 ≤ s.count) (h2 : s.count < 6000)
    (hb : s.buttonpushed ≠ 0) :
    pedestrian_light s = { s with PORTB := TURN_ON s.PORTB PEDESTRIAN } := by
  have hr : ¬ RED_ON s.count = true := by rw [RED_ON_iff]; omega
  simp [pedestrian_light, hr, hb, (GREEN_ON_iff s.count).2 ⟨h1, h2⟩]

theorem pedestrian_light_yellow (s : State) (h : 6000 ≤ s.count) (hb : s.buttonpushed ≠ 0) :
    pedestrian_light s =
      if s.count < 6500 then { s with PORTB := TURN_OFF s.PORTB PEDESTRIAN }
      else if s.count < 7000 then { s with PORTB := TURN_ON s.PORTB PEDESTRIAN }
      else if s.count < 7500 then { s with PORTB := TURN_OFF s.PORTB PEDESTRIAN }
      else if s.count < 8000 then
        { s with PORTB := TURN_ON s.PORTB PEDESTRIAN, buttonpushed := 0 }
      else s := by
  have hr : ¬ RED_ON s.count = true := by rw [RED_ON_iff]; omega
  have hg : ¬ GREEN_ON s.count = true := by rw [GREEN_ON_iff]; omega
  simp [pedestrian_light, hr, hg, hb, (YELLOW_ON_iff s.count).2 h]

/-! ## What each function leaves alone -/

theorem ISR_buttonpushed (s : State) : (ISR s).buttonpushed = s.buttonpushed := by
  unfold ISR; dsimp only; split <;> rfl

theorem ISR_PORTB (s : State) : (ISR s).PORTB = s.PORTB := by
  unfold ISR; dsimp only; split <;> rfl

theorem manage_traffic_lights_buttonpushed (s : State) :
    (manage_traffic_lights s).buttonpushed = s.buttonpushed := by
  unfold manage_traffic_lights red_light green_on yellow_on
  split
  · rfl
  · split <;> rfl

theorem manage_traffic_lights_count (s : State) :
    (manage_traffic_lights s).count = s.count := by
  unfold manage_traffic_lights red_light green_on yellow_on
  split
  · rfl
  · split <;> rfl

theorem manage_traffic_lights_pedestrian (s : State) :
    lit (manage_traffic_lights s).PORTB PEDESTRIAN
      = (lit s.PORTB PEDESTRIAN) := by
  unfold manage_traffic_lights red_light green_on yellow_on
  split
  · simp [lit_TURN_ON, lit_TURN_OFF, RED, GREEN, YELLOW, PEDESTRIAN, PORTB0, PORTB1,
      PORTB2, PORTB3]
  · split <;>
    simp [lit_TURN_ON, lit_TURN_OFF, RED, GREEN, YELLOW, PEDESTRIAN, PORTB0, PORTB1,
      PORTB2, PORTB3]

theorem button_press_pending (s : State) (a b : Nat) (hb : s.buttonpushed ≠ 0) :
    button_press s a b = s := by
  simp [button_press, hb]

theorem button_press_PORTB (s : State) (a b : Nat) : (button_press s a b).PORTB = s.PORTB := by
  unfold button_press; split <;> rfl

theorem button_press_count (s : State) (a b : Nat) : (button_press s a b).count = s.count := by
  unfold button_press; split <;> rfl

/-! ## Runs -/

theorem run_nil (s : State) : run s [] = s := rfl

theorem run_cons (s : State) (e : Event) (evs : List Event) :
    run s (e :: evs) = run (step s e) evs := rfl

theorem run_append (s : State) (xs ys : List Event) :
    run s (xs ++ ys) = run (run s xs) ys := by
  simp [run, List.foldl_append]

theorem run_take_succ (s : State) (evs : List Event) (k : Nat) (e : Event)
    (he : evs[k]? = some e) :
    run s (evs.take (k + 1)) = step (run s (evs.take k)) e := by
  rw [List.take_succ, run_append, he]
  rfl

theorem run_take_succ_of_le (s : State) (evs : List Event) (k : Nat)
    (hk : evs.length ≤ k) :
    run s (evs.take (k + 1)) = run s (evs.take k) := by
  rw [List.take_of_length_le hk, List.take_of_length_le (by omega)]

/-! ## Register widths are respected -/

theorem TURN_ON_lt (p n : Nat) : TURN_ON p n < 256 := Nat.mod_lt _ (by decide)

theorem TURN_OFF_lt (p n : Nat) : TURN_OFF p n < 256 := Nat.mod_lt _ (by decide)

theorem step_WF (s : State) (e : Event) (h : s.WF) : (step s e).WF := by
  obtain ⟨hp, hc, hb, ht⟩ := h
  cases e with
  | tick =>
    show (ISR s).WF
    unfold ISR State.WF
    dsimp only
    split
    · exact ⟨hp, Nat.zero_lt_succ _, hb, Nat.zero_lt_succ _⟩
    · exact ⟨hp, Nat.mod_lt _ (by decide), hb, Nat.zero_lt_succ _⟩
  | traffic =>
    show (manage_traffic_lights s).WF
    unfold manage_traffic_lights red_light green_on yellow_on State.WF
    split
    · exact ⟨TURN_OFF_lt _ _, hc, hb, ht⟩
    · split
      · exact ⟨TURN_ON_lt _ _, hc, hb, ht⟩
      · exact ⟨TURN_OFF_lt _ _, hc, hb, ht⟩
  | button a b =>
    show (button_press s a b).WF
    unfold button_press State.WF
    split
    · refine ⟨hp, hc, ?_, ht⟩
      dsimp only
      split <;> decide
    · exact ⟨hp, hc, hb, ht⟩
  | pedestrian =>
    show (pedestrian_light s).WF
    unfold pedestrian_light State.WF
    split_ifs <;>
      first
        | exact ⟨TURN_OFF_lt _ _, hc, hb, ht⟩
        | exact ⟨TURN_ON_lt _ _, hc, hb, ht⟩
        | exact ⟨TURN_ON_lt _ _, hc, Nat.zero_lt_succ _, ht⟩
        | exact ⟨hp, hc, hb, ht⟩

/-! ## Traffic phase selector -/

/-- C1: for every tick value below 8000 and every prior state, after
`manage_traffic_lights` the outputs match the phase table: red only when
`t < 4000`, green only when `4000 ≤ t < 6000`, yellow only when `6000 ≤ t < 8000`. -/
theorem manage_traffic_lights_phase_table (s : State) (_ht : s.count < 8000) :
    (s.count < 4000 →
        lit (manage_traffic_lights s).PORTB RED = true ∧
        lit (manage_traffic_lights s).PORTB YELLOW = false ∧
        lit (manage_traffic_lights s).PORTB GREEN = false) ∧
    (4000 ≤ s.count ∧ s.count < 6000 →
        lit (manage_traffic_lights s).PORTB GREEN = true ∧
        lit (manage_traffic_lights s).PORTB RED = false ∧
        lit (manage_traffic_lights s).PORTB YELLOW = false) ∧
    (6000 ≤ s.count ∧ s.count < 8000 →
        lit (manage_traffic_lights s).PORTB YELLOW = true ∧
        lit (manage_traffic_lights s).PORTB RED = false ∧
        lit (manage_traffic_lights s).PORTB GREEN = false) := by
  refine ⟨fun h => ?_, fun h => ?_, fun h => ?_⟩
  · rw [manage_traffic_lights_red s h]
    simp [red_light, lit_TURN_ON, lit_TURN_OFF, RED, GREEN, YELLOW, PORTB0, PORTB1, PORTB2]
  · rw [manage_traffic_lights_green s h.1 h.2]
    simp [green_on, lit_TURN_ON, lit_TURN_OFF, RED, GREEN, YELLOW, PORTB0, PORTB1, PORTB2]
  · rw [manage_traffic_lights_yellow s h.1]
    simp [yellow_on, lit_TURN_ON, lit_TURN_OFF, RED, GREEN, YELLOW, PORTB0, PORTB1, PORTB2]

/-- Witness for C1: the table at tick 4500 from a register with every bit set. -/
theorem manage_traffic_lights_phase_table_witness :
    lit (manage_traffic_lights
      { PORTB := 255, count := 4500, buttonpushed := 0, TCNT0 := 0 }).PORTB GREEN = true ∧
    lit (manage_traffic_lights
      { PORTB := 255, count := 4500, buttonpushed := 0, TCNT0 := 0 }).PORTB RED = false ∧
    lit (manage_traffic_lights
      { PORTB := 255, count := 4500, buttonpushed := 0, TCNT0 := 0 }).PORTB YELLOW = false :=
  (manage_traffic_lights_phase_table
    { PORTB := 255, count := 4500, buttonpushed := 0, TCNT0 := 0 } (by decide)).2.1
    ⟨by decide, by decide⟩

/-! ## Pedestrian controller -/

/-- C2: in the RED phase (`t < 4000`), whatever the prior outputs and whatever the value
of the request flag, after `pedestrian_light` the pedestrian output is OFF and the
request flag is unchanged. -/
theorem pedestrian_light_red_off (s : State) (h : s.count < 4000) :
    lit (pedestrian_light s).PORTB PEDESTRIAN = false ∧
    (pedestrian_light s).buttonpushed = s.buttonpushed := by
  rw [pedestrian_light_red s h]
  simp [lit_TURN_OFF]

/-- Witness for C2: tick 1234, pedestrian output previously ON, request pending. -/
theorem pedestrian_light_red_off_witness :
    lit (pedestrian_light
      { PORTB := 9, count := 1234, buttonpushed := 1, TCNT0 := 0 }).PORTB PEDESTRIAN = false ∧
    (pedestrian_light
      { PORTB := 9, count := 1234, buttonpushed := 1, TCNT0 := 0 }).buttonpushed = 1 :=
  pedestrian_light_red_off { PORTB := 9, count := 1234, buttonpushed := 1, TCNT0 := 0 }
    (by decide)

/-- While the counter is in the GREEN range a pending request survives every event. -/
theorem step_green_pending (s : State) (e : Event) (h1 : 4000 ≤ s.count)
    (h2 : s.count < 6000) (hb : s.buttonpushed ≠ 0) :
    (step s e).buttonpushed = s.buttonpushed := by
  cases e with
  | tick => exact ISR_buttonpushed s
  | traffic => exact manage_traffic_lights_buttonpushed s
  | button a b => show (button_press s a b).buttonpushed = _; rw [button_press_pending s a b hb]
  | pedestrian =>
    show (pedestrian_light s).buttonpushed = _
    rw [pedestrian_light_green s h1 h2 hb]

/-- C3: in the GREEN phase with a request pending, `pedestrian_light` turns the
pedestrian output ON and leaves the request pending; hence, from a state in GREEN with a
request pending, along any sequence of events each of which finds the counter in the
GREEN range, the output is ON and the request still pending after every evaluation of
`pedestrian_light`. -/
theorem pedestrian_light_green_on (s : State) (h1 : 4000 ≤ s.count) (h2 : s.count < 6000)
    (hb : s.buttonpushed ≠ 0) :
    (lit (pedestrian_light s).PORTB PEDESTRIAN = true ∧
      (pedestrian_light s).buttonpushed = s.buttonpushed) ∧
    ∀ evs : List Event,
      (∀ k, k < evs.length →
        4000 ≤ (run s (evs.take k)).count ∧ (run s (evs.take k)).count < 6000) →
      ∀ k, evs[k]? = some Event.pedestrian →
        lit (run s (evs.take (k + 1))).PORTB PEDESTRIAN = true ∧
        (run s (evs.take (k + 1))).buttonpushed = s.buttonpushed := by
  have single : ∀ u : State, 4000 ≤ u.count → u.count < 6000 → u.buttonpushed ≠ 0 →
      lit (pedestrian_light u).PORTB PEDESTRIAN = true ∧
      (pedestrian_light u).buttonpushed = u.buttonpushed := by
    intro u g1 g2 gb
    rw [pedestrian_light_green u g1 g2 gb]
    simp [lit_TURN_ON, PEDESTRIAN, PORTB3]
  refine ⟨single s h1 h2 hb, ?_⟩
  intro evs hg
  have keep : ∀ k, (run s (evs.take k)).buttonpushed = s.buttonpushed := by
    intro k
    induction k with
    | zero => rfl
    | succ k ih =>
      by_cases hk : k < evs.length
      · obtain ⟨e, he⟩ : ∃ e, evs[k]? = some e := ⟨evs[k], List.getElem?_eq_getElem hk⟩
        rw [run_take_succ s evs k e he,
          step_green_pending _ e (hg k hk).1 (hg k hk).2 (by rw [ih]; exact hb),
          ih]
      · rw [run_take_succ_of_le s evs k (by omega), ih]
  intro k hk
  have hlt : k < evs.length := by
    by_contra hc
    rw [List.getElem?_eq_none (by omega)] at hk
    exact absurd hk (by simp)
  rw [run_take_succ s evs k _ hk]
  have := single (run s (evs.take k)) (hg k hlt).1 (hg k hlt).2
    (by rw [keep k]; exact hb)
  exact ⟨this.1, by rw [show step (run s (evs.take k)) Event.pedestrian
    = pedestrian_light (run s (evs.take k)) from rfl, this.2, keep k]⟩

/-- C4: in the YELLOW phase with a request pending, the pedestrian output after
`pedestrian_light` is OFF on `[6000, 6500)`, ON on `[6500, 7000)`, OFF on `[7000, 7500)`
and ON on `[7500, 8000)`. -/
theorem pedestrian_light_yellow_blink (s : State) (h1 : 6000 ≤ s.count)
    (h2 : s.count < 8000) (hb : s.buttonpushed ≠ 0) :
    (s.count < 6500 → lit (pedestrian_light s).PORTB PEDESTRIAN = false) ∧
    (6500 ≤ s.count ∧ s.count < 7000 → lit (pedestrian_light s).PORTB PEDESTRIAN = true) ∧
    (7000 ≤ s.count ∧ s.count < 7500 → lit (pedestrian_light s).PORTB PEDESTRIAN = false) ∧
    (7500 ≤ s.count → lit (pedestrian_light s).PORTB PEDESTRIAN = true) := by
  rw [pedestrian_light_yellow s h1 hb]
  refine ⟨fun h => ?_, fun h => ?_, fun h => ?_, fun h => ?_⟩
  · rw [if_pos h]; simp [lit_TURN_OFF]
  · rw [if_neg (by omega), if_pos h.2]; simp [lit_TURN_ON, PEDESTRIAN, PORTB3]
  · rw [if_neg (by omega), if_neg (by omega), if_pos h.2]; simp [lit_TURN_OFF]
  · rw [if_neg (by omega), if_neg (by omega), if_neg (by omega), if_pos h2]
    simp [lit_TURN_ON, PEDESTRIAN, PORTB3]

/-- C5 fails as stated at tick 7500: the tick is before the boundary 8000 and a request
is pending, yet `pedestrian_light` clears the flag (the clearing happens on the first
evaluation inside `[7500, 8000)`, not at tick 8000). -/
theorem pedestrian_light_clears_at_7500 :
    ({ PORTB := 0, count := 7500, buttonpushed := 1, TCNT0 := 0 } : State).count < 8000 ∧
    ({ PORTB := 0, count := 7500, buttonpushed := 1, TCNT0 := 0 } : State).buttonpushed ≠ 0 ∧
    (pedestrian_light
      { PORTB := 0, count := 7500, buttonpushed := 1, TCNT0 := 0 }).buttonpushed = 0 := by
  decide

/-- C5 (amended): the fourth blink sub-interval `[7500, 8000)` is the sole clearing
region of the request flag. With a request pending, `pedestrian_light` leaves the flag
unchanged at every tick outside `[7500, 8000)` and sets it to 0 at every tick inside. -/
theorem pedestrian_light_clearing_region (s : State) (hb : s.buttonpushed ≠ 0) :
    ((s.count < 7500 ∨ 8000 ≤ s.count) →
      (pedestrian_light s).buttonpushed = s.buttonpushed) ∧
    ((7500 ≤ s.count ∧ s.count < 8000) → (pedestrian_light s).buttonpushed = 0) := by
  constructor
  · intro h
    by_cases hr : s.count < 4000
    · rw [pedestrian_light_red s hr]
    · by_cases hg : s.count < 6000
      · rw [pedestrian_light_green s (by omega) hg hb]
      · rw [pedestrian_light_yellow s (by omega) hb]
        split_ifs <;> first | rfl | omega
  · intro h
    rw [pedestrian_light_yellow s (by omega) hb, if_neg (by omega), if_neg (by omega),
      if_neg (by omega), if_pos h.2]

/-- Witness for C3: a request pending at tick 4000, one evaluation, and a run of two
loop iterations with a timer interrupt in between. -/
theorem pedestrian_light_green_on_witness :
    (lit (pedestrian_light
        { PORTB := 2, count := 4000, buttonpushed := 1, TCNT0 := 0 }).PORTB PEDESTRIAN = true ∧
      (pedestrian_light
        { PORTB := 2, count := 4000, buttonpushed := 1, TCNT0 := 0 }).buttonpushed = 1) ∧
    (lit (run { PORTB := 2, count := 4000, buttonpushed := 1, TCNT0 := 0 }
        ([Event.traffic, Event.button 0 0, Event.pedestrian, Event.tick, Event.traffic,
          Event.pedestrian].take (5 + 1))).PORTB PEDESTRIAN = true ∧
      (run { PORTB := 2, count := 4000, buttonpushed := 1, TCNT0 := 0 }
        ([Event.traffic, Event.button 0 0, Event.pedestrian, Event.tick, Event.traffic,
          Event.pedestrian].take (5 + 1))).buttonpushed = 1) :=
  ⟨(pedestrian_light_green_on { PORTB := 2, count := 4000, buttonpushed := 1, TCNT0 := 0 }
      (by decide) (by decide) (by decide)).1,
   (pedestrian_light_green_on { PORTB := 2, count := 4000, buttonpushed := 1, TCNT0 := 0 }
      (by decide) (by decide) (by decide)).2
      [Event.traffic, Event.button 0 0, Event.pedestrian, Event.tick, Event.traffic,
        Event.pedestrian]
      (by decide) 5 (by decide)⟩

/-- Witness for C4: tick 6700, second blink sub-interval. -/
theorem pedestrian_light_yellow_blink_witness :
    lit (pedestrian_light
      { PORTB := 4, count := 6700, buttonpushed := 1, TCNT0 := 0 }).PORTB PEDESTRIAN = true :=
  (pedestrian_light_yellow_blink { PORTB := 4, count := 6700, buttonpushed := 1, TCNT0 := 0 }
    (by decide) (by decide) (by decide)).2.1 ⟨by decide, by decide⟩

/-- Witness for C5 (amended): the flag is kept at tick 7499 and cleared at tick 7500. -/
theorem pedestrian_light_clearing_region_witness :
    (pedestrian_light
      { PORTB := 4, count := 7499, buttonpushed := 1, TCNT0 := 0 }).buttonpushed = 1 ∧
    (pedestrian_light
      { PORTB := 4, count := 7500, buttonpushed := 1, TCNT0 := 0 }).buttonpushed = 0 :=
  ⟨(pedestrian_light_clearing_region
      { PORTB := 4, count := 7499, buttonpushed := 1, TCNT0 := 0 } (by decide)).1
      (Or.inl (by decide)),
   (pedestrian_light_clearing_region
      { PORTB := 4, count := 7500, buttonpushed := 1, TCNT0 := 0 } (by decide)).2
      ⟨by decide, by decide⟩⟩

/-! ## Cycle clock -/

theorem ISR_count_of_lt (s : State) (h : s.count < 8000) : (ISR s).count = s.count + 1 := by
  unfold ISR
  dsimp only
  rw [if_neg (by omega)]
  exact Nat.mod_eq_of_lt (by omega)

theorem ISR_times_count (n : Nat) : ∀ s : State, s.count + n ≤ 8000 →
    (ISR_times n s).count = s.count + n := by
  induction n with
  | zero => intro s _; rfl
  | succ n ih =>
    intro s h
    show (ISR_times n (ISR s)).count = _
    have h1 : (ISR s).count = s.count + 1 := ISR_count_of_lt s (by omega)
    rw [ih (ISR s) (by omega), h1]
    omega

/-- C6 (evaluation at the failing input): from tick 7999 the handler yields 8000, not 0,
whatever the other registers hold. -/
theorem ISR_from_7999 (p b c : Nat) :
    (ISR { PORTB := p, count := 7999, buttonpushed := b, TCNT0 := c }).count = 8000 ∧
    (ISR { PORTB := p, count := 7999, buttonpushed := b, TCNT0 := c }).count
      ≠ (7999 + 1) % 8000 := by
  constructor
  · rfl
  · show (8000 : Nat) ≠ 0
    omega

/-- C7 (evaluation at the failing input): 8000 handler invocations from the initial state
leave the counter equal to 8000, outside `[0, 8000)`. -/
theorem ISR_times_8000_initial :
    (ISR_times 8000 initial).count = 8000 ∧ ¬ (ISR_times 8000 initial).count < 8000 := by
  have h : (ISR_times 8000 initial).count = initial.count + 8000 :=
    ISR_times_count 8000 initial (by decide)
  have h0 : initial.count = 0 := rfl
  omega

/-! ## Button latch -/

/-- C8: with no request pending, `button_press` sets the flag if and only if both
samples read the pin low; if either sample reads high the flag stays 0. -/
theorem button_press_debounce (s : State) (a b : Nat) (h : s.buttonpushed = 0) :
    ((button_press s a b).buttonpushed ≠ 0 ↔ (pinHigh a = false ∧ pinHigh b = false)) ∧
    ((pinHigh a = true ∨ pinHigh b = true) → (button_press s a b).buttonpushed = 0) := by
  have key : (button_press s a b).buttonpushed
      = if pinHigh b = true ∨ pinHigh a = true then 0 else 1 := by
    unfold button_press pinHigh
    rw [if_pos h]
    simp only [and_bit_mod, and_bit_ne_zero]
  rw [key]
  constructor
  · by_cases ha : pinHigh a = true <;> by_cases hb : pinHigh b = true <;> simp [ha, hb]
  · rintro (ha | hb)
    · simp [ha]
    · simp [hb]

/-- Witness for C8: both samples low latches the request, one sample high does not. -/
theorem button_press_debounce_witness :
    (button_press initial 0 0).buttonpushed ≠ 0 ∧ (button_press initial 0 8).buttonpushed = 0 :=
  ⟨(button_press_debounce initial 0 0 (by decide)).1.2 ⟨by decide, by decide⟩,
   (button_press_debounce initial 0 8 (by decide)).2 (Or.inr (by decide))⟩

/-- C9: with a request already pending, `button_press` returns the state unchanged
(flag, output register, counter and timer register), whatever the two samples are; in
particular the result does not depend on the samples. -/
theorem button_press_pending_frame (s : State) (a b : Nat) (h : s.buttonpushed ≠ 0) :
    button_press s a b = s ∧ ∀ a' b' : Nat, button_press s a' b' = button_press s a b := by
  refine ⟨button_press_pending s a b h, fun a' b' => ?_⟩
  rw [button_press_pending s a b h, button_press_pending s a' b' h]

/-- Witness for C9: a pending request at tick 5000 and two samples reading low. -/
theorem button_press_pending_frame_witness :
    button_press { PORTB := 10, count := 5000, buttonpushed := 1, TCNT0 := 3 } 0 0
      = { PORTB := 10, count := 5000, buttonpushed := 1, TCNT0 := 3 } :=
  (button_press_pending_frame { PORTB := 10, count := 5000, buttonpushed := 1, TCNT0 := 3 }
    0 0 (by decide)).1

/-! ## The button is never pushed -/

/-- No request pending and pedestrian output OFF is preserved by every event in which
the pin is not read low. -/
theorem step_idle (s : State) (e : Event) (he : neverLow e) (hb : s.buttonpushed = 0)
    (hp : lit s.PORTB PEDESTRIAN = false) :
    (step s e).buttonpushed = 0 ∧ lit (step s e).PORTB PEDESTRIAN = false := by
  cases e with
  | tick =>
    exact ⟨by rw [show step s Event.tick = ISR s from rfl, ISR_buttonpushed, hb],
      by rw [show step s Event.tick = ISR s from rfl, ISR_PORTB, hp]⟩
  | traffic =>
    exact ⟨by rw [show step s Event.traffic = manage_traffic_lights s from rfl,
        manage_traffic_lights_buttonpushed, hb],
      by rw [show step s Event.traffic = manage_traffic_lights s from rfl,
        manage_traffic_lights_pedestrian, hp]⟩
  | button a b =>
    have key : (button_press s a b).buttonpushed = 0 := by
      unfold button_press
      rw [if_pos hb]
      have hb2 : (b &&& (1 <<< PINC3)) ≠ 0 := (and_bit_ne_zero b PINC3).2 he.2
      simp [hb2]
    exact ⟨key, by rw [show step s (Event.button a b) = button_press s a b from rfl,
      button_press_PORTB, hp]⟩
  | pedestrian =>
    show (pedestrian_light s).buttonpushed = 0 ∧ lit (pedestrian_light s).PORTB PEDESTRIAN = false
    by_cases hr : s.count < 4000
    · rw [pedestrian_light_red s hr]
      exact ⟨hb, by simp [lit_TURN_OFF]⟩
    · rw [pedestrian_light_idle s (by omega) hb]
      exact ⟨hb, hp⟩

theorem run_idle (evs : List Event) : ∀ s : State, (∀ e ∈ evs, neverLow e) →
    s.buttonpushed = 0 → lit s.PORTB PEDESTRIAN = false →
    (run s evs).buttonpushed = 0 ∧ lit (run s evs).PORTB PEDESTRIAN = false := by
  induction evs with
  | nil => intro s _ hb hp; exact ⟨hb, hp⟩
  | cons e evs ih =>
    intro s h hb hp
    rw [run_cons]
    have h1 := step_idle s e (h e (List.mem_cons_self e evs)) hb hp
    exact ih (step s e) (fun x hx => h x (List.mem_cons_of_mem e hx)) h1.1 h1.2

/-- C10: if the button is never pushed the pedestrian light always remains off. From the
initial state, along every sequence of timer interrupts and evaluations of
`manage_traffic_lights`, `button_press` and `pedestrian_light` in which the pin never
reads low, after every step the request flag is 0 and the pedestrian output is OFF. -/
theorem never_pushed_pedestrian_off (evs : List Event) (h : ∀ e ∈ evs, neverLow e) (k : Nat) :
    (run initial (evs.take k)).buttonpushed = 0 ∧
    lit (run initial (evs.take k)).PORTB PEDESTRIAN = false :=
  run_idle (evs.take k) initial (fun e he => h e (List.mem_of_mem_take he)) rfl (by decide)

/-- Witness for C10: a loop iteration, four timer interrupts and another iteration, the
pin reading high throughout. -/
theorem never_pushed_pedestrian_off_witness :
    (run initial ([Event.traffic, Event.button 8 8, Event.pedestrian, Event.tick, Event.tick,
      Event.tick, Event.tick, Event.traffic, Event.button 255 8,
      Event.pedestrian].take 10)).buttonpushed = 0 ∧
    lit (run initial ([Event.traffic, Event.button 8 8, Event.pedestrian, Event.tick,
      Event.tick, Event.tick, Event.tick, Event.traffic, Event.button 255 8,
      Event.pedestrian].take 10)).PORTB PEDESTRIAN = false :=
  never_pushed_pedestrian_off
    [Event.traffic, Event.button 8 8, Event.pedestrian, Event.tick, Event.tick, Event.tick,
      Event.tick, Event.traffic, Event.button 255 8, Event.pedestrian]
    (by decide) 10

/-! ## Effect of the functions on the individual output lines -/

theorem manage_traffic_lights_lit (s : State) :
    lit (manage_traffic_lights s).PORTB RED = decide (s.count < 4000) ∧
    lit (manage_traffic_lights s).PORTB GREEN = decide (4000 ≤ s.count ∧ s.count < 6000) ∧
    lit (manage_traffic_lights s).PORTB YELLOW = decide (6000 ≤ s.count) := by
  by_cases hr : s.count < 4000
  · rw [manage_traffic_lights_red s hr]
    have h1 : ¬ (4000 ≤ s.count ∧ s.count < 6000) := by omega
    have h2 : ¬ 6000 ≤ s.count := by omega
    simp [red_light, lit_TURN_ON, lit_TURN_OFF, RED, GREEN, YELLOW, PORTB0, PORTB1, PORTB2,
      hr, h1, h2]
  · by_cases hg : s.count < 6000
    · rw [manage_traffic_lights_green s (by omega) hg]
      have h1 : 4000 ≤ s.count ∧ s.count < 6000 := by omega
      have h2 : ¬ 6000 ≤ s.count := by omega
      simp [green_on, lit_TURN_ON, lit_TURN_OFF, RED, GREEN, YELLOW, PORTB0, PORTB1, PORTB2,
        hr, h1, h2]
    · rw [manage_traffic_lights_yellow s (by omega)]
      have h1 : ¬ (4000 ≤ s.count ∧ s.count < 6000) := by omega
      have h2 : 6000 ≤ s.count := by omega
      simp [yellow_on, lit_TURN_ON, lit_TURN_OFF, RED, GREEN, YELLOW, PORTB0, PORTB1, PORTB2,
        hr, h1, h2]

theorem lit_TURN_ON_other (p n m : Nat) (h8 : m < 8) (hm : n ≠ m) :
    lit (TURN_ON p n) m = lit p m := by
  rw [lit_TURN_ON]; simp [h8, hm]

theorem lit_TURN_OFF_other (p n m : Nat) (h8 : m < 8) (hm : n ≠ m) :
    lit (TURN_OFF p n) m = lit p m := by
  rw [lit_TURN_OFF]; simp [h8, hm]

theorem manage_traffic_lights_frame (s : State) (m : Nat) (h3 : 3 ≤ m) (h8 : m < 8) :
    lit (manage_traffic_lights s).PORTB m = lit s.PORTB m := by
  have e0 : (0 : Nat) ≠ m := by omega
  have e1 : (1 : Nat) ≠ m := by omega
  have e2 : (2 : Nat) ≠ m := by omega
  unfold manage_traffic_lights red_light green_on yellow_on
  split
  · simp only [RED, GREEN, YELLOW, PORTB0, PORTB1, PORTB2]
    rw [lit_TURN_OFF_other _ _ _ h8 e1, lit_TURN_OFF_other _ _ _ h8 e2,
      lit_TURN_ON_other _ _ _ h8 e0]
  · split
    · simp only [RED, GREEN, YELLOW, PORTB0, PORTB1, PORTB2]
      rw [lit_TURN_ON_other _ _ _ h8 e1, lit_TURN_OFF_other _ _ _ h8 e2,
        lit_TURN_OFF_other _ _ _ h8 e0]
    · simp only [RED, GREEN, YELLOW, PORTB0, PORTB1, PORTB2]
      rw [lit_TURN_OFF_other _ _ _ h8 e1, lit_TURN_ON_other _ _ _ h8 e2,
        lit_TURN_OFF_other _ _ _ h8 e0]

theorem pedestrian_light_frame (s : State) (m : Nat) (h8 : m < 8) (hm : m ≠ PEDESTRIAN) :
    lit (pedestrian_light s).PORTB m = lit s.PORTB m := by
  have e3 : PEDESTRIAN ≠ m := fun h => hm h.symm
  unfold pedestrian_light
  split_ifs <;>
    first
      | rfl
      | exact lit_TURN_OFF_other _ _ _ h8 e3
      | exact lit_TURN_ON_other _ _ _ h8 e3

theorem pedestrian_light_count (s : State) : (pedestrian_light s).count = s.count := by
  unfold pedestrian_light
  split_ifs <;> rfl

/-- What `pedestrian_light` does to the request flag and to the pedestrian line, as a
function of the counter, the flag and the previous level of the line. -/
theorem pedestrian_light_effect (s : State) :
    (pedestrian_light s).buttonpushed
      = (if s.buttonpushed ≠ 0 ∧ 7500 ≤ s.count ∧ s.count < 8000 then 0 else s.buttonpushed) ∧
    lit (pedestrian_light s).PORTB PEDESTRIAN
      = (if s.count < 4000 then false
         else if s.buttonpushed = 0 ∨ 8000 ≤ s.count then lit s.PORTB PEDESTRIAN
         else decide (s.count < 6000 ∨ (6500 ≤ s.count ∧ s.count < 7000) ∨ 7500 ≤ s.count)) := by
  by_cases hr : s.count < 4000
  · rw [pedestrian_light_red s hr, if_neg (by omega), if_pos hr]
    exact ⟨rfl, by simp [lit_TURN_OFF]⟩
  · by_cases hb : s.buttonpushed = 0
    · rw [pedestrian_light_idle s (by omega) hb, if_neg (fun h => h.1 hb), if_neg hr,
        if_pos (Or.inl hb)]
      exact ⟨rfl, rfl⟩
    · by_cases hg : s.count < 6000
      · rw [pedestrian_light_green s (by omega) hg hb, if_neg (by omega), if_neg hr,
          if_neg (by omega)]
        exact ⟨rfl, by simp [lit_TURN_ON, PEDESTRIAN, PORTB3, hg]⟩
      · rw [pedestrian_light_yellow s (by omega) hb, if_neg hr]
        by_cases h1 : s.count < 6500
        · rw [if_pos h1, if_neg (by omega), if_neg (by omega)]
          exact ⟨rfl, by
            have : ¬ (s.count < 6000 ∨ (6500 ≤ s.count ∧ s.count < 7000) ∨ 7500 ≤ s.count) := by
              omega
            simp [lit_TURN_OFF, this]⟩
        · by_cases h2 : s.count < 7000
          · rw [if_neg h1, if_pos h2, if_neg (by omega), if_neg (by omega)]
            exact ⟨rfl, by
              have : (s.count < 6000 ∨ (6500 ≤ s.count ∧ s.count < 7000) ∨ 7500 ≤ s.count) := by
                omega
              simp [lit_TURN_ON, PEDESTRIAN, PORTB3, this]⟩
          · by_cases h3 : s.count < 7500
            · rw [if_neg h1, if_neg h2, if_pos h3, if_neg (by omega), if_neg (by omega)]
              exact ⟨rfl, by
                have : ¬ (s.count < 6000 ∨ (6500 ≤ s.count ∧ s.count < 7000)
                    ∨ 7500 ≤ s.count) := by omega
                simp [lit_TURN_OFF, this]⟩
            · by_cases h4 : s.count < 8000
              · rw [if_neg h1, if_neg h2, if_neg h3, if_pos h4, if_pos ⟨hb, by omega, h4⟩,
                  if_neg (by omega)]
                exact ⟨rfl, by
                  have : (s.count < 6000 ∨ (6500 ≤ s.count ∧ s.count < 7000)
                      ∨ 7500 ≤ s.count) := by omega
                  simp [lit_TURN_ON, PEDESTRIAN, PORTB3, this]⟩
              · rw [if_neg h1, if_neg h2, if_neg h3, if_neg h4, if_neg (by omega),
                  if_pos (Or.inr (by omega))]
                exact ⟨rfl, rfl⟩

/-! ## The pedestrian line is stored in the output register -/

/-- C13 fails as stated: at tick 5000 with no request pending, two evaluations of
`pedestrian_light` that differ only in the prior output register give different
pedestrian outputs (ON when the line was ON before, OFF when it was OFF). -/
theorem pedestrian_light_output_stored :
    ({ PORTB := 8, count := 5000, buttonpushed := 0, TCNT0 := 0 } : State).count
      = ({ PORTB := 0, count := 5000, buttonpushed := 0, TCNT0 := 0 } : State).count ∧
    ({ PORTB := 8, count := 5000, buttonpushed := 0, TCNT0 := 0 } : State).buttonpushed
      = ({ PORTB := 0, count := 5000, buttonpushed := 0, TCNT0 := 0 } : State).buttonpushed ∧
    lit (pedestrian_light
      { PORTB := 8, count := 5000, buttonpushed := 0, TCNT0 := 0 }).PORTB PEDESTRIAN = true ∧
    lit (pedestrian_light
      { PORTB := 0, count := 5000, buttonpushed := 0, TCNT0 := 0 }).PORTB PEDESTRIAN = false := by
  decide

/-- C13 (amended): the pedestrian output after `pedestrian_light` is determined by the
tick, the request flag and the prior pedestrian output. In RED, and below tick 8000 with a
request pending, it does not depend on the prior output register at all; in GREEN or
YELLOW with no request pending it equals the prior pedestrian output (hence OFF when the
line was OFF before). -/
theorem pedestrian_light_output_determined (s1 s2 : State) (hc : s1.count = s2.count)
    (hb : s1.buttonpushed = s2.buttonpushed) :
    (lit s1.PORTB PEDESTRIAN = lit s2.PORTB PEDESTRIAN →
      lit (pedestrian_light s1).PORTB PEDESTRIAN = lit (pedestrian_light s2).PORTB PEDESTRIAN) ∧
    (s1.count < 4000 ∨ (s1.buttonpushed ≠ 0 ∧ s1.count < 8000) →
      lit (pedestrian_light s1).PORTB PEDESTRIAN = lit (pedestrian_light s2).PORTB PEDESTRIAN) ∧
    (4000 ≤ s1.count → s1.buttonpushed = 0 →
      lit (pedestrian_light s1).PORTB PEDESTRIAN = lit s1.PORTB PEDESTRIAN) := by
  have e1 := (pedestrian_light_effect s1).2
  have e2 := (pedestrian_light_effect s2).2
  rw [← hc, ← hb] at e2
  refine ⟨fun hp => ?_, fun h => ?_, fun h4 h0 => ?_⟩
  · rw [e1, e2, hp]
  · rw [e1, e2]
    rcases h with h | ⟨h, h8⟩
    · rw [if_pos h, if_pos h]
    · by_cases hr : s1.count < 4000
      · rw [if_pos hr, if_pos hr]
      · rw [if_neg hr, if_neg hr, if_neg (by omega), if_neg (by omega)]
  · rw [e1, if_neg (by omega), if_pos (Or.inl h0)]

/-- Witness for C13 (amended): at tick 6700 with a request pending the output is the same
from two different prior registers. -/
theorem pedestrian_light_output_determined_witness :
    lit (pedestrian_light
      { PORTB := 8, count := 6700, buttonpushed := 1, TCNT0 := 0 }).PORTB PEDESTRIAN
    = lit (pedestrian_light
      { PORTB := 0, count := 6700, buttonpushed := 1, TCNT0 := 0 }).PORTB PEDESTRIAN :=
  (pedestrian_light_output_determined
    { PORTB := 8, count := 6700, buttonpushed := 1, TCNT0 := 0 }
    { PORTB := 0, count := 6700, buttonpushed := 1, TCNT0 := 0 } rfl rfl).2.1
    (Or.inr ⟨by decide, by decide⟩)

/-! ## Mutual exclusion, idempotence and independence of the output lines -/

/-- C14: for every counter value (8000 and above included) and every prior output
register, after `manage_traffic_lights` exactly one of the red, green and yellow outputs
is ON. -/
theorem manage_traffic_lights_exactly_one (s : State) :
    (lit (manage_traffic_lights s).PORTB RED = true ∧
      lit (manage_traffic_lights s).PORTB GREEN = false ∧
      lit (manage_traffic_lights s).PORTB YELLOW = false) ∨
    (lit (manage_traffic_lights s).PORTB RED = false ∧
      lit (manage_traffic_lights s).PORTB GREEN = true ∧
      lit (manage_traffic_lights s).PORTB YELLOW = false) ∨
    (lit (manage_traffic_lights s).PORTB RED = false ∧
      lit (manage_traffic_lights s).PORTB GREEN = false ∧
      lit (manage_traffic_lights s).PORTB YELLOW = true) := by
  obtain ⟨hr, hg, hy⟩ := manage_traffic_lights_lit s
  rw [hr, hg, hy]
  by_cases h1 : s.count < 4000
  · left
    exact ⟨by simp [h1], by simp; omega, by simp; omega⟩
  · by_cases h2 : s.count < 6000
    · right; left
      exact ⟨by simp [h1], by simp; omega, by simp; omega⟩
    · right; right
      exact ⟨by simp [h1], by simp; omega, by simp; omega⟩

theorem red_bits_idem (p : Nat) :
    TURN_OFF (TURN_OFF (TURN_ON (TURN_OFF (TURN_OFF (TURN_ON p RED) YELLOW) GREEN) RED) YELLOW)
      GREEN = TURN_OFF (TURN_OFF (TURN_ON p RED) YELLOW) GREEN := by
  apply Nat.eq_of_testBit_eq
  intro i
  simp only [testBit_TURN_ON, testBit_TURN_OFF]
  generalize p.testBit i = x
  generalize decide (i < 8) = a
  generalize decide (RED = i) = r
  generalize decide (YELLOW = i) = y
  generalize decide (GREEN = i) = g
  cases x <;> cases a <;> cases r <;> cases y <;> cases g <;> rfl

theorem green_bits_idem (p : Nat) :
    TURN_ON (TURN_OFF (TURN_OFF (TURN_ON (TURN_OFF (TURN_OFF p RED) YELLOW) GREEN) RED) YELLOW)
      GREEN = TURN_ON (TURN_OFF (TURN_OFF p RED) YELLOW) GREEN := by
  apply Nat.eq_of_testBit_eq
  intro i
  simp only [testBit_TURN_ON, testBit_TURN_OFF]
  generalize p.testBit i = x
  generalize decide (i < 8) = a
  generalize decide (RED = i) = r
  generalize decide (YELLOW = i) = y
  generalize decide (GREEN = i) = g
  cases x <;> cases a <;> cases r <;> cases y <;> cases g <;> rfl

theorem yellow_bits_idem (p : Nat) :
    TURN_OFF (TURN_ON (TURN_OFF (TURN_OFF (TURN_ON (TURN_OFF p RED) YELLOW) GREEN) RED) YELLOW)
      GREEN = TURN_OFF (TURN_ON (TURN_OFF p RED) YELLOW) GREEN := by
  apply Nat.eq_of_testBit_eq
  intro i
  simp only [testBit_TURN_ON, testBit_TURN_OFF]
  generalize p.testBit i = x
  generalize decide (i < 8) = a
  generalize decide (RED = i) = r
  generalize decide (YELLOW = i) = y
  generalize decide (GREEN = i) = g
  cases x <;> cases a <;> cases r <;> cases y <;> cases g <;> rfl

/-- C15: `manage_traffic_lights` is idempotent and re-asserts the full light set: for
every state, evaluating it twice gives the same state as evaluating it once, and the
resulting red, green and yellow outputs are the same whatever output register `p` it
starts from. -/
theorem manage_traffic_lights_idempotent (s : State) (p : Nat) :
    manage_traffic_lights (manage_traffic_lights s) = manage_traffic_lights s ∧
    lit (manage_traffic_lights { s with PORTB := p }).PORTB RED
      = lit (manage_traffic_lights s).PORTB RED ∧
    lit (manage_traffic_lights { s with PORTB := p }).PORTB GREEN
      = lit (manage_traffic_lights s).PORTB GREEN ∧
    lit (manage_traffic_lights { s with PORTB := p }).PORTB YELLOW
      = lit (manage_traffic_lights s).PORTB YELLOW := by
  constructor
  · by_cases hr : s.count < 4000
    · rw [manage_traffic_lights_red s hr, manage_traffic_lights_red (red_light s) hr]
      simp only [red_light, red_bits_idem]
    · by_cases hg : s.count < 6000
      · rw [manage_traffic_lights_green s (by omega) hg,
          manage_traffic_lights_green (green_on s) (show 4000 ≤ s.count by omega) hg]
        simp only [green_on, green_bits_idem]
      · rw [manage_traffic_lights_yellow s (by omega),
          manage_traffic_lights_yellow (yellow_on s) (show 6000 ≤ s.count by omega)]
        simp only [yellow_on, yellow_bits_idem]
  · obtain ⟨r1, g1, y1⟩ := manage_traffic_lights_lit s
    obtain ⟨r2, g2, y2⟩ := manage_traffic_lights_lit { s with PORTB := p }
    exact ⟨by rw [r1, r2], by rw [g1, g2], by rw [y1, y2]⟩

/-- C16: the output lines are independent. `manage_traffic_lights` leaves the pedestrian
bit and the upper four bits of the output register (bits 3 to 7) and the request flag
unchanged; `pedestrian_light` leaves every bit of the output register other than the
pedestrian bit (red, green, yellow and the upper four bits) unchanged. -/
theorem output_lines_independent (s : State) :
    ((∀ m, 3 ≤ m → m < 8 → lit (manage_traffic_lights s).PORTB m = lit s.PORTB m) ∧
      (manage_traffic_lights s).buttonpushed = s.buttonpushed) ∧
    (∀ m, m < 8 → m ≠ PEDESTRIAN → lit (pedestrian_light s).PORTB m = lit s.PORTB m) :=
  ⟨⟨fun m h3 h8 => manage_traffic_lights_frame s m h3 h8,
    manage_traffic_lights_buttonpushed s⟩,
   fun m h8 hm => pedestrian_light_frame s m h8 hm⟩

/-! ## Bound kept by the timer handler -/

theorem ISR_count_le (s : State) (h : s.count ≤ 8000) : (ISR s).count ≤ 8000 := by
  by_cases h8 : s.count < 8000
  · rw [ISR_count_of_lt s h8]; omega
  · unfold ISR
    dsimp only
    rw [if_pos (by omega)]
    exact Nat.zero_le _

theorem ISR_times_le (n : Nat) : ∀ s : State, s.count ≤ 8000 →
    (ISR_times n s).count ≤ 8000 := by
  induction n with
  | zero => intro s h; exact h
  | succ n ih => intro s h; exact ih (ISR s) (ISR_count_le s h)

/-- C17: with the threshold read as 8000, for every counter value `c ≤ 8000` the
handler's result is at most 8000, equals `c + 1` when `c < 8000`, and equals 0 exactly
when `c = 8000`; hence from 0 the counter never exceeds 8000 and the increment never
overflows 16 bits. -/
theorem ISR_bound (s : State) (h : s.count ≤ 8000) :
    (ISR s).count ≤ 8000 ∧
    (s.count < 8000 → (ISR s).count = s.count + 1) ∧
    ((ISR s).count = 0 ↔ s.count = 8000) ∧
    (∀ n, (ISR_times n initial).count ≤ 8000 ∧ (ISR_times n initial).count + 1 < 65536) := by
  refine ⟨ISR_count_le s h, ISR_count_of_lt s, ?_, fun n => ?_⟩
  · constructor
    · intro h0
      by_contra hne
      have := ISR_count_of_lt s (by omega)
      omega
    · intro h8
      unfold ISR
      dsimp only
      rw [if_pos (by omega)]
  · have := ISR_times_le n initial (by decide)
    omega

/-- Witness for C17: the handler at 7999 and at 8000. -/
theorem ISR_bound_witness :
    (ISR { PORTB := 0, count := 7999, buttonpushed := 0, TCNT0 := 7 }).count = 7999 + 1 ∧
    (ISR { PORTB := 0, count := 8000, buttonpushed := 0, TCNT0 := 7 }).count = 0 :=
  ⟨(ISR_bound { PORTB := 0, count := 7999, buttonpushed := 0, TCNT0 := 7 } (by decide)).2.1
      (by decide),
   (ISR_bound { PORTB := 0, count := 8000, buttonpushed := 0, TCNT0 := 7 }
      (by decide)).2.2.1.2 rfl⟩

/-! ## One loop iteration per tick: helper lemmas -/

theorem button_press_flag (s : State) (a b : Nat) :
    (button_press s a b).buttonpushed
      = (if s.buttonpushed = 0 then (if bothLow (a, b) then 1 else 0) else s.buttonpushed) := by
  by_cases hb : s.buttonpushed = 0
  · rw [if_pos hb]
    unfold button_press bothLow pinHigh
    rw [if_pos hb]
    simp only [and_bit_mod, and_bit_ne_zero]
    by_cases ha : a.testBit PINC3 = true <;> by_cases hb2 : b.testBit PINC3 = true <;>
      simp [ha, hb2]
  · rw [if_neg hb, button_press_pending s a b hb]

theorem main_iteration_count (s : State) (a b : Nat) :
    (main_iteration s a b).count = s.count := by
  unfold main_iteration
  rw [pedestrian_light_count, button_press_count, manage_traffic_lights_count]

/-- The request flag and the pedestrian line after one pass of the main loop. -/
theorem main_iteration_effect (s : State) (a b f : Nat)
    (hf : f = (if s.buttonpushed = 0 then (if bothLow (a, b) then 1 else 0)
      else s.buttonpushed)) :
    (main_iteration s a b).buttonpushed
      = (if f ≠ 0 ∧ 7500 ≤ s.count ∧ s.count < 8000 then 0 else f) ∧
    lit (main_iteration s a b).PORTB PEDESTRIAN
      = (if s.count < 4000 then false
         else if f = 0 ∨ 8000 ≤ s.count then lit s.PORTB PEDESTRIAN
         else decide (s.count < 6000 ∨ (6500 ≤ s.count ∧ s.count < 7000) ∨ 7500 ≤ s.count)) := by
  have e := pedestrian_light_effect (button_press (manage_traffic_lights s) a b)
  rw [button_press_count, manage_traffic_lights_count, button_press_PORTB,
    manage_traffic_lights_pedestrian, button_press_flag, manage_traffic_lights_buttonpushed,
    ← hf] at e
  exact e

/-- The traffic lights after one pass of the main loop follow the counter. -/
theorem main_iteration_lights (s : State) (a b : Nat) :
    lit (main_iteration s a b).PORTB RED = decide (s.count < 4000) ∧
    lit (main_iteration s a b).PORTB GREEN = decide (4000 ≤ s.count ∧ s.count < 6000) ∧
    lit (main_iteration s a b).PORTB YELLOW = decide (6000 ≤ s.count) := by
  obtain ⟨hr, hg, hy⟩ := manage_traffic_lights_lit s
  unfold main_iteration
  refine ⟨?_, ?_, ?_⟩
  · rw [pedestrian_light_frame _ RED (by decide) (by decide), button_press_PORTB, hr]
  · rw [pedestrian_light_frame _ GREEN (by decide) (by decide), button_press_PORTB, hg]
  · rw [pedestrian_light_frame _ YELLOW (by decide) (by decide), button_press_PORTB, hy]

theorem ISR_count (s : State) (h : s.count ≤ 8000) :
    (ISR s).count = (if s.count = 8000 then 0 else s.count + 1) := by
  by_cases h8 : s.count = 8000
  · rw [if_pos h8]
    unfold ISR
    dsimp only
    rw [if_pos (by omega)]
  · rw [if_neg h8, ISR_count_of_lt s (by omega)]

theorem loop_run_count (inp : Nat → Nat × Nat) (n : Nat) :
    (loop_run inp n).count = n % 8001 := by
  induction n with
  | zero => exact main_iteration_count initial _ _
  | succ n ih =>
    show (main_iteration (ISR (loop_run inp n)) _ _).count = _
    rw [main_iteration_count, ISR_count _ (by rw [ih]; omega), ih]
    split <;> omega

theorem loop_run_lights (inp : Nat → Nat × Nat) (n : Nat) :
    lit (loop_run inp n).PORTB RED = decide (n % 8001 < 4000) ∧
    lit (loop_run inp n).PORTB GREEN = decide (4000 ≤ n % 8001 ∧ n % 8001 < 6000) ∧
    lit (loop_run inp n).PORTB YELLOW = decide (6000 ≤ n % 8001) := by
  have hc := loop_run_count inp n
  cases n with
  | zero =>
    have := main_iteration_lights initial (inp 0).1 (inp 0).2
    exact this
  | succ n =>
    have hc2 : (ISR (loop_run inp n)).count = (n + 1) % 8001 := by
      rw [← hc]
      exact (main_iteration_count _ _ _).symm
    have := main_iteration_lights (ISR (loop_run inp n)) (inp (n + 1)).1 (inp (n + 1)).2
    rw [hc2] at this
    exact this

theorem single_press_bothLow (p n : Nat) : bothLow (single_press p n) ↔ n = p := by
  unfold single_press
  by_cases h : n = p
  · rw [if_pos h]
    exact ⟨fun _ => h, fun _ => by decide⟩
  · rw [if_neg h]
    exact ⟨fun hb => absurd hb (by decide), fun hp => absurd hp h⟩

/-- First cycle of a run with a single press latched in iteration `p < 7500`: the request
flag and the pedestrian line after iteration `n ≤ 8000`. -/
theorem loop_run_first_cycle (inp : Nat → Nat × Nat) (p : Nat) (hp : p < 7500)
    (h : ∀ n, bothLow (inp n) ↔ n = p) (n : Nat) (hn : n ≤ 8000) :
    (loop_run inp n).buttonpushed = (if p ≤ n ∧ n < 7500 then 1 else 0) ∧
    lit (loop_run inp n).PORTB PEDESTRIAN
      = decide (p ≤ n ∧ (4000 ≤ n ∧ n < 6000 ∨ 6500 ≤ n ∧ n < 7000 ∨ 7500 ≤ n)) := by
  induction n with
  | zero =>
    have e := main_iteration_effect initial (inp 0).1 (inp 0).2 _ rfl
    have hc : initial.count = 0 := rfl
    have hb : initial.buttonpushed = 0 := rfl
    rw [hc, hb] at e
    simp only [Prod.mk.eta, h] at e
    show (main_iteration initial (inp 0).1 (inp 0).2).buttonpushed = _ ∧
      lit (main_iteration initial (inp 0).1 (inp 0).2).PORTB PEDESTRIAN = _
    rw [e.1, e.2]
    constructor
    · split_ifs <;> first | rfl | omega
    · rw [if_pos (by omega), eq_comm, decide_eq_false_iff_not]
      omega
  | succ n ih =>
    obtain ⟨ihf, ihp⟩ := ih (by omega)
    have hc : (ISR (loop_run inp n)).count = n + 1 := by
      rw [ISR_count_of_lt _ (by rw [loop_run_count]; omega), loop_run_count]
      omega
    have e := main_iteration_effect (ISR (loop_run inp n)) (inp (n + 1)).1 (inp (n + 1)).2 _ rfl
    rw [hc, ISR_buttonpushed, ISR_PORTB, ihf, ihp] at e
    simp only [Prod.mk.eta, h] at e
    show (main_iteration (ISR (loop_run inp n)) (inp (n + 1)).1 (inp (n + 1)).2).buttonpushed = _
      ∧ lit (main_iteration (ISR (loop_run inp n)) (inp (n + 1)).1
        (inp (n + 1)).2).PORTB PEDESTRIAN = _
    rw [e.1, e.2]
    clear e ihf ihp hc
    by_cases hA : p ≤ n ∧ n < 7500
    · have hB : ¬ n + 1 = p := by omega
      simp only [if_pos hA, if_neg hB, one_ne_zero, if_false, ne_eq, not_false_eq_true,
        true_and, false_or]
      constructor
      · split_ifs <;> first | rfl | omega
      · split_ifs <;>
          first
            | (rw [decide_eq_decide]; omega)
            | (rw [eq_comm, decide_eq_false_iff_not]; omega)
    · by_cases hB : n + 1 = p
      · simp only [if_neg hA, if_pos hB, if_true, one_ne_zero, ne_eq, not_false_eq_true,
          true_and, false_or]
        constructor
        · split_ifs <;> first | rfl | omega
        · split_ifs <;>
          first
            | (rw [decide_eq_decide]; omega)
            | (rw [eq_comm, decide_eq_false_iff_not]; omega)
      · simp only [if_neg hA, if_neg hB, if_true, ne_eq, not_true_eq_false, false_and,
          if_false, true_or]
        constructor
        · split_ifs <;> first | rfl | omega
        · split_ifs <;>
          first
            | (rw [decide_eq_decide]; omega)
            | (rw [eq_comm, decide_eq_false_iff_not]; omega)

theorem main_iteration_idle (s : State) (a b : Nat) (hb : s.buttonpushed = 0)
    (hl : ¬ bothLow (a, b)) (hp : lit s.PORTB PEDESTRIAN = false ∨ s.count < 4000) :
    (main_iteration s a b).buttonpushed = 0 ∧
    lit (main_iteration s a b).PORTB PEDESTRIAN = false := by
  have e := main_iteration_effect s a b 0 (by rw [if_pos hb, if_neg hl])
  rw [e.1, e.2]
  constructor
  · split_ifs <;> rfl
  · by_cases hr : s.count < 4000
    · rw [if_pos hr]
    · rw [if_neg hr, if_pos (Or.inl rfl)]
      rcases hp with hp | hp
      · exact hp
      · exact absurd hp hr

/-- After the first cycle of a run with a single press latched in iteration `p < 7500`
no request is pending and the pedestrian line is OFF, for ever. -/
theorem loop_run_after_cycle (inp : Nat → Nat × Nat) (p : Nat) (hp : p < 7500)
    (h : ∀ n, bothLow (inp n) ↔ n = p) (n : Nat) (hn : 8001 ≤ n) :
    (loop_run inp n).buttonpushed = 0 ∧ lit (loop_run inp n).PORTB PEDESTRIAN = false := by
  induction n, hn using Nat.le_induction with
  | base =>
    have h0 := (loop_run_first_cycle inp p hp h 8000 (le_refl _)).1
    rw [if_neg (by omega)] at h0
    have hc : (ISR (loop_run inp 8000)).count = 0 := by
      rw [ISR_count _ (by rw [loop_run_count]), loop_run_count]
      rfl
    have hl : ¬ bothLow ((inp 8001).1, (inp 8001).2) := by
      rw [Prod.mk.eta, h]; omega
    exact main_iteration_idle (ISR (loop_run inp 8000)) _ _
      (by rw [ISR_buttonpushed, h0]) hl (Or.inr (by rw [hc]; decide))
  | succ n hn ih =>
    have hl : ¬ bothLow ((inp (n + 1)).1, (inp (n + 1)).2) := by
      rw [Prod.mk.eta, h]; omega
    exact main_iteration_idle (ISR (loop_run inp n)) _ _
      (by rw [ISR_buttonpushed, ih.1]) hl (Or.inl (by rw [ISR_PORTB, ih.2]))

/-! ## End-to-end scenario -/

/-- C11: one main-loop iteration per tick from the initial state, the input read pressed
on both samples only in the iteration at tick 4500. Iteration `n` runs at tick `n` for
`n ≤ 8000`; no request and pedestrian OFF before tick 4500; red alone is lit before tick
4000 and green alone from 4000 to 6000; the pedestrian output is ON after every iteration
from 4500 up to 6000; from 6000 yellow alone is lit and the pedestrian output is OFF, ON,
OFF, ON over the four 500-tick sub-intervals; and after the iteration that follows the
wrap of the counter to 0 the request flag is 0 and the pedestrian output is OFF. -/
theorem end_to_end_scenario (inp : Nat → Nat × Nat) (h : ∀ n, bothLow (inp n) ↔ n = 4500) :
    (∀ n, n ≤ 8000 → (loop_run inp n).count = n) ∧
    (∀ n, n < 4500 → (loop_run inp n).buttonpushed = 0 ∧
      lit (loop_run inp n).PORTB PEDESTRIAN = false) ∧
    (∀ n, n < 4000 → lit (loop_run inp n).PORTB RED = true ∧
      lit (loop_run inp n).PORTB GREEN = false ∧ lit (loop_run inp n).PORTB YELLOW = false) ∧
    (∀ n, 4000 ≤ n → n < 6000 → lit (loop_run inp n).PORTB GREEN = true ∧
      lit (loop_run inp n).PORTB RED = false ∧ lit (loop_run inp n).PORTB YELLOW = false) ∧
    (∀ n, 4500 ≤ n → n < 6000 → lit (loop_run inp n).PORTB PEDESTRIAN = true) ∧
    (∀ n, 6000 ≤ n → n < 8000 → lit (loop_run inp n).PORTB YELLOW = true ∧
      lit (loop_run inp n).PORTB RED = false ∧ lit (loop_run inp n).PORTB GREEN = false) ∧
    (∀ n, 6000 ≤ n → n < 6500 → lit (loop_run inp n).PORTB PEDESTRIAN = false) ∧
    (∀ n, 6500 ≤ n → n < 7000 → lit (loop_run inp n).PORTB PEDESTRIAN = true) ∧
    (∀ n, 7000 ≤ n → n < 7500 → lit (loop_run inp n).PORTB PEDESTRIAN = false) ∧
    (∀ n, 7500 ≤ n → n < 8000 → lit (loop_run inp n).PORTB PEDESTRIAN = true) ∧
    ((loop_run inp 8001).count = 0 ∧ (loop_run inp 8001).buttonpushed = 0 ∧
      lit (loop_run inp 8001).PORTB PEDESTRIAN = false) := by
  have flag : ∀ n, n ≤ 8000 →
      (loop_run inp n).buttonpushed = (if 4500 ≤ n ∧ n < 7500 then 1 else 0) :=
    fun n hn => (loop_run_first_cycle inp 4500 (by decide) h n hn).1
  have ped : ∀ n, n ≤ 8000 → lit (loop_run inp n).PORTB PEDESTRIAN
      = decide (4500 ≤ n ∧ (4000 ≤ n ∧ n < 6000 ∨ 6500 ≤ n ∧ n < 7000 ∨ 7500 ≤ n)) :=
    fun n hn => (loop_run_first_cycle inp 4500 (by decide) h n hn).2
  have lights : ∀ n, n ≤ 8000 → lit (loop_run inp n).PORTB RED = decide (n < 4000) ∧
      lit (loop_run inp n).PORTB GREEN = decide (4000 ≤ n ∧ n < 6000) ∧
      lit (loop_run inp n).PORTB YELLOW = decide (6000 ≤ n) := by
    intro n hn
    have := loop_run_lights inp n
    rw [Nat.mod_eq_of_lt (show n < 8001 by omega)] at this
    exact this
  refine ⟨?_, ?_, ?_, ?_, ?_, ?_, ?_, ?_, ?_, ?_, ?_⟩
  · intro n hn
    rw [loop_run_count, Nat.mod_eq_of_lt (by omega)]
  · intro n hn
    constructor
    · rw [flag n (by omega), if_neg (by omega)]
    · rw [ped n (by omega), decide_eq_false_iff_not]; omega
  · intro n hn
    obtain ⟨r, g, y⟩ := lights n (by omega)
    refine ⟨?_, ?_, ?_⟩
    · rw [r, decide_eq_true_iff]; omega
    · rw [g, decide_eq_false_iff_not]; omega
    · rw [y, decide_eq_false_iff_not]; omega
  · intro n h1 h2
    obtain ⟨r, g, y⟩ := lights n (by omega)
    refine ⟨?_, ?_, ?_⟩
    · rw [g, decide_eq_true_iff]; omega
    · rw [r, decide_eq_false_iff_not]; omega
    · rw [y, decide_eq_false_iff_not]; omega
  · intro n h1 h2
    rw [ped n (by omega), decide_eq_true_iff]; omega
  · intro n h1 h2
    obtain ⟨r, g, y⟩ := lights n (by omega)
    refine ⟨?_, ?_, ?_⟩
    · rw [y, decide_eq_true_iff]; omega
    · rw [r, decide_eq_false_iff_not]; omega
    · rw [g, decide_eq_false_iff_not]; omega
  · intro n h1 h2
    rw [ped n (by omega), decide_eq_false_iff_not]; omega
  · intro n h1 h2
    rw [ped n (by omega), decide_eq_true_iff]; omega
  · intro n h1 h2
    rw [ped n (by omega), decide_eq_false_iff_not]; omega
  · intro n h1 h2
    rw [ped n (by omega), decide_eq_true_iff]; omega
  · have a := loop_run_after_cycle inp 4500 (by decide) h 8001 (le_refl _)
    exact ⟨by rw [loop_run_count], a.1, a.2⟩

/-- Witness for C11: the scenario with the pin at 0 in iteration 4500 and at 8 otherwise;
pedestrian ON after iteration 5000, flag 0 and pedestrian OFF after iteration 8001. -/
theorem end_to_end_scenario_witness :
    lit (loop_run (single_press 4500) 5000).PORTB PEDESTRIAN = true ∧
    ((loop_run (single_press 4500) 8001).count = 0 ∧
      (loop_run (single_press 4500) 8001).buttonpushed = 0 ∧
      lit (loop_run (single_press 4500) 8001).PORTB PEDESTRIAN = false) :=
  ⟨(end_to_end_scenario (single_press 4500) (single_press_bothLow 4500)).2.2.2.2.1 5000
      (by decide) (by decide),
   (end_to_end_scenario (single_press 4500) (single_press_bothLow 4500)).2.2.2.2.2.2.2.2.2.2⟩

/-! ## A single press -/

/-- C12 fails as stated for a press latched in GREEN at tick 4500: the pedestrian output
is OFF after the iteration at the GREEN tick 4000 and ON from tick 4500 (a partial
activation of the current window), and in the GREEN phase of the next cycle (iteration
13001, tick 5000) no request is pending and the output is OFF. -/
theorem single_press_in_green_partial :
    ((loop_run (single_press 4500) 4000).count = 4000 ∧
      lit (loop_run (single_press 4500) 4000).PORTB PEDESTRIAN = false) ∧
    ((loop_run (single_press 4500) 4500).buttonpushed = 1 ∧
      lit (loop_run (single_press 4500) 4500).PORTB PEDESTRIAN = true) ∧
    ((loop_run (single_press 4500) 13001).count = 5000 ∧
      (loop_run (single_press 4500) 13001).buttonpushed = 0 ∧
      lit (loop_run (single_press 4500) 13001).PORTB PEDESTRIAN = false) := by
  have h := single_press_bothLow 4500
  have a := loop_run_first_cycle (single_press 4500) 4500 (by decide) h 4000 (by decide)
  have b := loop_run_first_cycle (single_press 4500) 4500 (by decide) h 4500 (by decide)
  have c := loop_run_after_cycle (single_press 4500) 4500 (by decide) h 13001 (by decide)
  refine ⟨⟨by rw [loop_run_count], ?_⟩, ⟨?_, ?_⟩, ⟨by rw [loop_run_count], c.1, c.2⟩⟩
  · rw [a.2]; decide
  · rw [b.1]; decide
  · rw [b.2]; decide

/-- A run with a single press latched in iteration `8001 * c + t0`, that is at tick
`t0 < 8000` of cycle number `c`: the request flag and the pedestrian line after every
iteration `n`. -/
theorem loop_run_single_press (inp : Nat → Nat × Nat) (c t0 : Nat) (ht0 : t0 < 8000)
    (h : ∀ n, bothLow (inp n) ↔ n = 8001 * c + t0) (n : Nat) :
    (loop_run inp n).buttonpushed
      = (if 8001 * c + t0 ≤ n ∧ n < 8001 * c + 7500 then 1 else 0) ∧
    lit (loop_run inp n).PORTB PEDESTRIAN
      = decide (8001 * c + t0 ≤ n ∧ n ≤ 8001 * c + 8000 ∧
          (4000 ≤ n % 8001 ∧ n % 8001 < 6000 ∨ 6500 ≤ n % 8001 ∧ n % 8001 < 7000
            ∨ 7500 ≤ n % 8001)) := by
  induction n with
  | zero =>
    have e := main_iteration_effect initial (inp 0).1 (inp 0).2 _ rfl
    have hc : initial.count = 0 := rfl
    have hb : initial.buttonpushed = 0 := rfl
    rw [hc, hb] at e
    simp only [Prod.mk.eta, h] at e
    show (main_iteration initial (inp 0).1 (inp 0).2).buttonpushed = _ ∧
      lit (main_iteration initial (inp 0).1 (inp 0).2).PORTB PEDESTRIAN = _
    rw [e.1, e.2]
    constructor
    · split_ifs <;> first | rfl | omega
    · rw [if_pos (by omega), eq_comm, decide_eq_false_iff_not]
      omega
  | succ n ih =>
    obtain ⟨ihf, ihp⟩ := ih
    have hc : (ISR (loop_run inp n)).count = (n + 1) % 8001 := by
      rw [← loop_run_count inp (n + 1)]
      exact (main_iteration_count _ _ _).symm
    have e := main_iteration_effect (ISR (loop_run inp n)) (inp (n + 1)).1 (inp (n + 1)).2 _ rfl
    rw [hc, ISR_buttonpushed, ISR_PORTB, ihf, ihp] at e
    simp only [Prod.mk.eta, h] at e
    show (main_iteration (ISR (loop_run inp n)) (inp (n + 1)).1 (inp (n + 1)).2).buttonpushed = _
      ∧ lit (main_iteration (ISR (loop_run inp n)) (inp (n + 1)).1
        (inp (n + 1)).2).PORTB PEDESTRIAN = _
    rw [e.1, e.2]
    clear e ihf ihp hc h
    by_cases hA : 8001 * c + t0 ≤ n ∧ n < 8001 * c + 7500
    · have hB : ¬ n + 1 = 8001 * c + t0 := by omega
      simp only [if_pos hA, if_neg hB, one_ne_zero, if_false, ne_eq, not_false_eq_true,
        true_and, false_or]
      constructor
      · split_ifs <;> first | rfl | omega
      · split_ifs <;>
          first
            | (rw [decide_eq_decide]; omega)
            | (rw [eq_comm, decide_eq_false_iff_not]; omega)
    · by_cases hB : n + 1 = 8001 * c + t0
      · simp only [if_neg hA, if_pos hB, if_true, one_ne_zero, ne_eq, not_false_eq_true,
          true_and, false_or]
        constructor
        · split_ifs <;> first | rfl | omega
        · split_ifs <;>
            first
              | (rw [decide_eq_decide]; omega)
              | (rw [eq_comm, decide_eq_false_iff_not]; omega)
      · simp only [if_neg hA, if_neg hB, if_true, ne_eq, not_true_eq_false, false_and,
          if_false, true_or]
        constructor
        · split_ifs <;> first | rfl | omega
        · split_ifs <;>
            first
              | (rw [decide_eq_decide]; omega)
              | (rw [eq_comm, decide_eq_false_iff_not]; omega)

/-- A press latched at the extra tick 8000 of cycle `c` (iteration `8001 * c + 8000`), which
the counter holds for one tick before it wraps: no branch of `pedestrian_light` applies at
that tick, so the request is carried into cycle `c + 1` and served there from GREEN on. -/
theorem loop_run_press_at_8000 (inp : Nat → Nat × Nat) (c : Nat)
    (h : ∀ n, bothLow (inp n) ↔ n = 8001 * c + 8000) (n : Nat) :
    (loop_run inp n).buttonpushed
      = (if 8001 * c + 8000 ≤ n ∧ n < 8001 * (c + 1) + 7500 then 1 else 0) ∧
    lit (loop_run inp n).PORTB PEDESTRIAN
      = decide (8001 * (c + 1) ≤ n ∧ n ≤ 8001 * (c + 1) + 8000 ∧
          (4000 ≤ n % 8001 ∧ n % 8001 < 6000 ∨ 6500 ≤ n % 8001 ∧ n % 8001 < 7000
            ∨ 7500 ≤ n % 8001)) := by
  induction n with
  | zero =>
    have e := main_iteration_effect initial (inp 0).1 (inp 0).2 _ rfl
    have hc : initial.count = 0 := rfl
    have hb : initial.buttonpushed = 0 := rfl
    rw [hc, hb] at e
    simp only [Prod.mk.eta, h] at e
    show (main_iteration initial (inp 0).1 (inp 0).2).buttonpushed = _ ∧
      lit (main_iteration initial (inp 0).1 (inp 0).2).PORTB PEDESTRIAN = _
    rw [e.1, e.2]
    have h0 : ¬ (0 = 8001 * c + 8000) := by omega
    constructor
    · rw [if_neg (show ¬ (8001 * c + 8000 ≤ 0 ∧ 0 < 8001 * (c + 1) + 7500) by omega)]
      simp [h0]
    · rw [if_pos (by omega), eq_comm, decide_eq_false_iff_not]
      omega
  | succ n ih =>
    obtain ⟨ihf, ihp⟩ := ih
    have hc : (ISR (loop_run inp n)).count = (n + 1) % 8001 := by
      rw [← loop_run_count inp (n + 1)]
      exact (main_iteration_count _ _ _).symm
    have e := main_iteration_effect (ISR (loop_run inp n)) (inp (n + 1)).1 (inp (n + 1)).2 _ rfl
    rw [hc, ISR_buttonpushed, ISR_PORTB, ihf, ihp] at e
    simp only [Prod.mk.eta, h] at e
    show (main_iteration (ISR (loop_run inp n)) (inp (n + 1)).1 (inp (n + 1)).2).buttonpushed = _
      ∧ lit (main_iteration (ISR (loop_run inp n)) (inp (n + 1)).1
        (inp (n + 1)).2).PORTB PEDESTRIAN = _
    rw [e.1, e.2]
    clear e ihf ihp hc h
    by_cases hA : 8001 * c + 8000 ≤ n ∧ n < 8001 * (c + 1) + 7500
    · have hB : ¬ n + 1 = 8001 * c + 8000 := by omega
      simp only [if_pos hA, if_neg hB, one_ne_zero, if_false, ne_eq, not_false_eq_true,
        true_and, false_or]
      constructor
      · split_ifs <;> first | rfl | omega
      · split_ifs <;>
          first
            | (rw [decide_eq_decide]; omega)
            | (rw [eq_comm, decide_eq_false_iff_not]; omega)
    · by_cases hB : n + 1 = 8001 * c + 8000
      · simp only [if_neg hA, if_pos hB, if_true, one_ne_zero, ne_eq, not_false_eq_true,
          true_and, false_or]
        constructor
        · split_ifs <;> first | rfl | omega
        · split_ifs <;>
            first
              | (rw [decide_eq_decide]; omega)
              | (rw [eq_comm, decide_eq_false_iff_not]; omega)
      · simp only [if_neg hA, if_neg hB, if_true, ne_eq, not_true_eq_false, false_and,
          if_false, true_or]
        constructor
        · split_ifs <;> first | rfl | omega
        · split_ifs <;>
            first
              | (rw [decide_eq_decide]; omega)
              | (rw [eq_comm, decide_eq_false_iff_not]; omega)

/-- C12 (amended): a single press latched at any tick `t0 < 8000` of any cycle `c`, in any
phase (iteration `8001 * c + t0`), with one main-loop iteration per tick and no further
press. Iteration `8001 * c + t` runs at tick `t` of that cycle. Before the press no request
is pending and the pedestrian output is OFF. The request is pending from the press up to
tick 7500 of the same cycle (the first evaluation of the fourth blink sub-interval) and
never afterwards; a press latched at `t0 ≥ 7500` is cleared in the pass that latches it.
At every tick `t` from `t0` on, the pedestrian output is OFF in RED, ON in GREEN and OFF,
ON, OFF, ON over the four blink sub-intervals, and it is OFF in every iteration of every
later cycle: one activation, which is the full one when `t0 ≤ 4000` and the part of it
from `t0` on otherwise. -/
theorem single_press_honoured (inp : Nat → Nat × Nat) (c t0 : Nat) (ht0 : t0 < 8000)
    (h : ∀ n, bothLow (inp n) ↔ n = 8001 * c + t0) :
    (∀ t, t ≤ 8000 → (loop_run inp (8001 * c + t)).count = t) ∧
    (∀ n, n < 8001 * c + t0 → (loop_run inp n).buttonpushed = 0 ∧
      lit (loop_run inp n).PORTB PEDESTRIAN = false) ∧
    (∀ t, t0 ≤ t → t < 7500 → (loop_run inp (8001 * c + t)).buttonpushed = 1) ∧
    (∀ n, 8001 * c + 7500 ≤ n → (loop_run inp n).buttonpushed = 0) ∧
    (∀ t, t0 ≤ t → t < 4000 →
      lit (loop_run inp (8001 * c + t)).PORTB PEDESTRIAN = false) ∧
    (∀ t, t0 ≤ t → 4000 ≤ t → t < 6000 →
      lit (loop_run inp (8001 * c + t)).PORTB PEDESTRIAN = true) ∧
    (∀ t, t0 ≤ t → 6000 ≤ t → t < 6500 →
      lit (loop_run inp (8001 * c + t)).PORTB PEDESTRIAN = false) ∧
    (∀ t, t0 ≤ t → 6500 ≤ t → t < 7000 →
      lit (loop_run inp (8001 * c + t)).PORTB PEDESTRIAN = true) ∧
    (∀ t, t0 ≤ t → 7000 ≤ t → t < 7500 →
      lit (loop_run inp (8001 * c + t)).PORTB PEDESTRIAN = false) ∧
    (∀ t, t0 ≤ t → 7500 ≤ t → t < 8000 →
      lit (loop_run inp (8001 * c + t)).PORTB PEDESTRIAN = true) ∧
    (∀ n, 8001 * c + 8000 < n → lit (loop_run inp n).PORTB PEDESTRIAN = false) := by
  have flag : ∀ n, (loop_run inp n).buttonpushed
      = (if 8001 * c + t0 ≤ n ∧ n < 8001 * c + 7500 then 1 else 0) :=
    fun n => (loop_run_single_press inp c t0 ht0 h n).1
  have ped : ∀ n, lit (loop_run inp n).PORTB PEDESTRIAN
      = decide (8001 * c + t0 ≤ n ∧ n ≤ 8001 * c + 8000 ∧
          (4000 ≤ n % 8001 ∧ n % 8001 < 6000 ∨ 6500 ≤ n % 8001 ∧ n % 8001 < 7000
            ∨ 7500 ≤ n % 8001)) :=
    fun n => (loop_run_single_press inp c t0 ht0 h n).2
  refine ⟨?_, ?_, ?_, ?_, ?_, ?_, ?_, ?_, ?_, ?_, ?_⟩
  · intro t ht
    rw [loop_run_count]; omega
  · intro n hn
    constructor
    · rw [flag n, if_neg (by omega)]
    · rw [ped n, decide_eq_false_iff_not]; omega
  · intro t h1 h2
    rw [flag, if_pos (by omega)]
  · intro n h1
    rw [flag n, if_neg (by omega)]
  · intro t h1 h2
    rw [ped, decide_eq_false_iff_not]; omega
  · intro t h1 h2 h3
    rw [ped, decide_eq_true_iff]; omega
  · intro t h1 h2 h3
    rw [ped, decide_eq_false_iff_not]; omega
  · intro t h1 h2 h3
    rw [ped, decide_eq_true_iff]; omega
  · intro t h1 h2 h3
    rw [ped, decide_eq_false_iff_not]; omega
  · intro t h1 h2 h3
    rw [ped, decide_eq_true_iff]; omega
  · intro n h1
    rw [ped n, decide_eq_false_iff_not]; omega

/-- Witness for C12 (amended): a press latched in RED at tick 1000 of the second cycle
(request pending at tick 3000, pedestrian ON at tick 4000 of that cycle), and a press
latched in YELLOW at tick 7600 of the first cycle (pedestrian ON and request already
cleared after the pass that latched it). -/
theorem single_press_honoured_witness :
    ((loop_run (single_press (8001 * 1 + 1000)) (8001 * 1 + 3000)).buttonpushed = 1 ∧
      lit (loop_run (single_press (8001 * 1 + 1000)) (8001 * 1 + 4000)).PORTB PEDESTRIAN
        = true) ∧
    ((loop_run (single_press (8001 * 0 + 7600)) 7600).buttonpushed = 0 ∧
      lit (loop_run (single_press (8001 * 0 + 7600)) (8001 * 0 + 7600)).PORTB PEDESTRIAN
        = true) :=
  ⟨⟨(single_press_honoured (single_press (8001 * 1 + 1000)) 1 1000 (by decide)
        (single_press_bothLow (8001 * 1 + 1000))).2.2.1 3000 (by decide) (by decide),
    (single_press_honoured (single_press (8001 * 1 + 1000)) 1 1000 (by decide)
        (single_press_bothLow (8001 * 1 + 1000))).2.2.2.2.2.1 4000 (by decide) (by decide)
        (by decide)⟩,
   ⟨(single_press_honoured (single_press (8001 * 0 + 7600)) 0 7600 (by decide)
        (single_press_bothLow (8001 * 0 + 7600))).2.2.2.1 7600 (by decide),
    (single_press_honoured (single_press (8001 * 0 + 7600)) 0 7600 (by decide)
        (single_press_bothLow (8001 * 0 + 7600))).2.2.2.2.2.2.2.2.2.1 7600 (by decide)
        (by decide) (by decide)⟩⟩

end TrafficControl
